import Mathlib

/-!
Verification of the core logic of gmail_read.py: credential acquisition,
reply threading with subject resolution, and message body decoding.
Each definition is a shallow embedding of the corresponding source code;
external collaborators (filesystem, OAuth library, remote mail API) are
modelled as explicit environment records whose fields stand for the
answers those collaborators give during one invocation.
-/

/-! ## Threading policy and send path (gmail_read.py, send_message and main) -/

/-- ASCII case folding of one character, as python str.lower acts on the
ASCII range (the subjects handled by the program headers are modelled in
that range). -/
def lowerChar (c : Char) : Char :=
  if 65 ≤ c.toNat ∧ c.toNat ≤ 90 then Char.ofNat (c.toNat + 32) else c

/-- Python s.lower() on the modelled character range. -/
def pyToLower (s : String) : String := ⟨s.data.map lowerChar⟩

/-- Python s.startswith(pre). -/
def pyStartsWith (s pre : String) : Bool := List.isPrefixOf pre.data s.data

/-- Check subject.lower().startswith("re:") as used at lines 231 and 371
of gmail_read.py. -/
def lowerStartsWithRe (s : String) : Bool := pyStartsWith (pyToLower s) "re:"

/-- Fields of the original message that send_message reads from the result
of get_message_full (line 220): headers default to the empty string when
absent, as built at lines 148 to 158. -/
structure OrigMsg where
  fromHeader : String
  subject : String
  message_id : String
  threadId : String
deriving DecidableEq

/-- Identifier pair returned by the remote send call (line 255). -/
structure ApiSendResult where
  id : String
  threadId : String
deriving DecidableEq

/-- Environment of one send invocation: the original message the remote
get would return for the reply target, and the result the remote send
would return. -/
structure SendEnv where
  original : OrigMsg
  apiResult : ApiSendResult
deriving DecidableEq

/-- The outgoing MIME message headers that send_message assembles
(lines 207 to 232). cc and bcc are only set when truthy. -/
structure MimeMsg where
  toAddr : String
  subject : String
  body : String
  cc : Option String
  bcc : Option String
  inReplyTo : Option String
  references : Option String
deriving DecidableEq

/-- Count of remote calls made by send_message: messages.get for the
reply original (line 220) and messages.send (line 255). -/
structure SendEff where
  getCalls : Nat
  sendCalls : Nat
deriving DecidableEq

/-- Result of send_message: the value returned to the caller (None on
dry run), the assembled MIME message, the threadId attached to the send
body when truthy, and the remote call counts. -/
structure SendOutcome where
  result : Option ApiSendResult
  message : MimeMsg
  threadId : Option String
  eff : SendEff
deriving DecidableEq

/-- Python truthiness filter for optional string arguments: an absent or
empty string is falsy, as in the checks at lines 211 to 214. -/
def truthyOpt : Option String → Option String
  | some s => if s = "" then none else some s
  | none => none

/-- Shallow embedding of send_message (gmail_read.py lines 203 to 262).
The base64 encoding of the envelope is not modelled here; the headers,
the reply handling, the dry-run gate and the remote calls are. -/
def send_message (env : SendEnv) (toAddr subject body : String)
    (replyToId : Option String) (cc bcc : Option String) (dryRun : Bool) :
    SendOutcome :=
  let msg0 : MimeMsg := ⟨toAddr, subject, body, truthyOpt cc, truthyOpt bcc, none, none⟩
  match replyToId with
  | none =>
    if dryRun then ⟨none, msg0, none, ⟨0, 0⟩⟩
    else ⟨some env.apiResult, msg0, none, ⟨0, 1⟩⟩
  | some _ =>
    let original := env.original
    let msg1 : MimeMsg :=
      if original.message_id ≠ "" then
        ⟨msg0.toAddr, msg0.subject, msg0.body, msg0.cc, msg0.bcc,
          some original.message_id, some original.message_id⟩
      else msg0
    let tid : Option String :=
      if original.threadId ≠ "" then some original.threadId else none
    let msg2 : MimeMsg :=
      if lowerStartsWithRe subject then msg1
      else
        ⟨msg1.toAddr, "Re: " ++ original.subject, msg1.body, msg1.cc, msg1.bcc,
          msg1.inReplyTo, msg1.references⟩
    if dryRun then ⟨none, msg2, tid, ⟨1, 0⟩⟩
    else ⟨some env.apiResult, msg2, tid, ⟨1, 1⟩⟩

/-- Subject resolution in main for a reply (gmail_read.py lines 367 to
372): an empty user subject is replaced by the subject of the original
message, prefixed with "Re: " unless it already starts with "re:"
case-insensitively. -/
def main_reply_subject (userSubject origSubject : String) : String :=
  if userSubject = "" then
    if lowerStartsWithRe origSubject then origSubject
    else "Re: " ++ origSubject
  else userSubject

/-- Subject of the outgoing MIME message for a reply driven through main
and send_message (lines 367 to 383 feeding lines 203 to 232). -/
def reply_outgoing_subject (env : SendEnv)
    (userSubject toAddr body replyToId : String) (dryRun : Bool) : String :=
  (send_message env toAddr (main_reply_subject userSubject env.original.subject)
    body (some replyToId) none none dryRun).message.subject

/-- C1: evaluation at the failing input. Replying with the user subject
"Hello" to an original whose subject is "Re: Foo" makes the program send
the subject "Re: Re: Foo": send_message prefixes "Re: " onto the subject
of the original message, which already carries the prefix, so the
outgoing subject carries it twice, contradicting the claim that exactly
one prefix is ever applied. -/
theorem reply_double_re_evaluation :
    reply_outgoing_subject
        ⟨⟨"alice@example.com", "Re: Foo", "<mid1@example.com>", "t1"⟩, ⟨"m1", "t1"⟩⟩
        "Hello" "bob@example.com" "Thanks" "orig1" true = "Re: Re: Foo" ∧
    pyStartsWith "Re: Re: Foo" "Re: Re: " = true := by
  exact ⟨rfl, by decide⟩

/-- C2: evaluation at the failing input. Replying with the non-empty user
subject "Hello" to an original whose subject is "Project update" makes
the program send "Re: Project update": send_message discards the user
subject and substitutes the subject of the original message, while the
claim requires the resolved subject to be derived from the user subject
("Re: Hello"). -/
theorem reply_user_subject_discarded_evaluation :
    reply_outgoing_subject
        ⟨⟨"alice@example.com", "Project update", "<mid2@example.com>", "t2"⟩, ⟨"m2", "t2"⟩⟩
        "Hello" "bob@example.com" "Thanks" "orig2" true = "Re: Project update" ∧
    "Re: Project update" ≠ "Re: Hello" := by
  exact ⟨rfl, by decide⟩

/-- C9 counterexample: a dry-run reply still performs a remote call. With
dry_run set and a reply target given, send_message fetches the original
message through the remote API (one messages.get call) before returning,
so the claim that no remote API call is performed on dry runs is false. -/
theorem dry_run_reply_remote_get_counterexample :
    (send_message ⟨⟨"alice@example.com", "Hi", "<mid3@example.com>", "t3"⟩, ⟨"m3", "t3"⟩⟩
      "bob@example.com" "Hi" "Body" (some "orig3") none none true).eff.getCalls = 1 := rfl

/-- C9 amended: with the dry-run flag set, send_message never performs the
remote send call and returns no message id; a dry-run reply still performs
exactly one remote get for the original message, while a plain dry-run
send performs no remote call at all. -/
theorem dry_run_no_send_no_id (env : SendEnv) (toAddr subject body : String)
    (replyToId : Option String) (cc bcc : Option String) :
    (send_message env toAddr subject body replyToId cc bcc true).result = none ∧
    (send_message env toAddr subject body replyToId cc bcc true).eff.sendCalls = 0 ∧
    (send_message env toAddr subject body replyToId cc bcc true).eff.getCalls =
      (if replyToId.isSome then 1 else 0) := by
  cases replyToId <;> exact ⟨rfl, rfl, rfl⟩

/-! ## Credential acquisition (gmail_read.py, get_credentials and main) -/

/-- The two scopes required by the program (gmail_read.py lines 33 to 36). -/
def SCOPES : List String :=
  ["https://www.googleapis.com/auth/gmail.readonly",
   "https://www.googleapis.com/auth/gmail.send"]

/-- A loaded or granted credential as the OAuth library presents it to
get_credentials: the recorded scope list (absent when the record carries
none), whether an access token is present, whether the expiry has passed,
and whether a refresh token is present. -/
structure Cred where
  scopes : Option (List String)
  hasToken : Bool
  expired : Bool
  hasRefreshToken : Bool
deriving DecidableEq

/-- Validity as the OAuth library defines it and as creds.valid reads it
at line 59: an access token is present and the expiry has not passed. -/
def Cred.valid (c : Cred) : Bool := c.hasToken && !c.expired

/-- Effect of creds.refresh(Request()) succeeding at line 62: the
credential now holds a fresh unexpired access token. -/
def refreshCred (c : Cred) : Cred := ⟨c.scopes, true, false, c.hasRefreshToken⟩

/-- Python truthiness of creds.scopes at line 52: an absent or empty
scope list is falsy. -/
def scopesTruthy (c : Cred) : Bool := !(c.scopes.getD []).isEmpty

/-- The required scopes that the credential record does not grant, as
set(SCOPES) - set(creds.scopes) at line 53 (kept in SCOPES order). -/
def missingScopes (c : Cred) : List String :=
  SCOPES.filter (fun s => !((c.scopes.getD []).contains s))

/-- The scope screening at lines 52 to 57: when the recorded scope list
is truthy and misses a required scope the credential is dropped
(creds = None); otherwise it passes through unchanged. -/
def scope_check (c : Cred) : Option Cred :=
  if scopesTruthy c && !(missingScopes c).isEmpty then none else some c

/-- Side effects of one get_credentials run: remote refresh calls
(line 62), interactive authorization runs (lines 77 to 80), token file
writes counting the mkdir plus write_text pair (lines 83 to 84), and the
credential written by that save when one happens. -/
structure Effects where
  refreshCalls : Nat
  interactiveRuns : Nat
  saves : Nat
  saved : Option Cred
deriving DecidableEq

/-- Result of get_credentials: a returned credential with its effects, a
propagating parse exception from from_authorized_user_file on an
unreadable token file (line 49), or the sys.exit(1) for a missing client
secret file (lines 68 to 75). -/
inductive Outcome where
  | ok (c : Cred) (eff : Effects)
  | parseFailure (eff : Effects)
  | setupExit (eff : Effects)
deriving DecidableEq

/-- Effects recorded in an Outcome. -/
def Outcome.eff : Outcome → Effects
  | Outcome.ok _ e => e
  | Outcome.parseFailure e => e
  | Outcome.setupExit e => e

/-- Environment of one get_credentials run: whether the token file
exists, what parsing it yields (none models a parse exception), whether
the client secret file exists, whether the remote refresh call succeeds,
and the credential an interactive authorization would grant. -/
structure Env where
  tokenFileExists : Bool
  parsedCred : Option Cred
  credentialsFileExists : Bool
  refreshSucceeds : Bool
  freshCred : Cred
deriving DecidableEq

/-- The interactive re-authorization tail of get_credentials (lines 67 to
84): sys.exit(1) when the client secret file is missing, otherwise run
the installed-app flow, then save the credential. -/
def interactiveReauth (env : Env) (eff : Effects) : Outcome :=
  if env.credentialsFileExists then
    Outcome.ok env.freshCred
      ⟨eff.refreshCalls, eff.interactiveRuns + 1, eff.saves + 1, some env.freshCred⟩
  else Outcome.setupExit eff

/-- The validity half of get_credentials (lines 59 to 86), entered with
the credential left by loading and scope screening: a valid credential
returns at once with no effects; an invalid expired credential with a
refresh token is refreshed, falling through to re-authorization when the
refresh call fails; a missing credential goes straight to
re-authorization; every path that passed through the branch saves the
credential it ends with before returning. -/
def getCredsWithLoaded (env : Env) : Option Cred → Outcome
  | some c =>
    if c.valid then Outcome.ok c ⟨0, 0, 0, none⟩
    else
      if c.expired && c.hasRefreshToken then
        if env.refreshSucceeds then
          Outcome.ok (refreshCred c) ⟨1, 0, 1, some (refreshCred c)⟩
        else interactiveReauth env ⟨1, 0, 0, none⟩
      else Outcome.ok c ⟨0, 0, 1, some c⟩
  | none => interactiveReauth env ⟨0, 0, 0, none⟩

/-- Shallow embedding of get_credentials (gmail_read.py lines 44 to 86). -/
def get_credentials (env : Env) : Outcome :=
  if env.tokenFileExists then
    match env.parsedCred with
    | none => Outcome.parseFailure ⟨0, 0, 0, none⟩
    | some c => getCredsWithLoaded env (scope_check c)
  else getCredsWithLoaded env none

/-- Result of main as far as credential acquisition goes: either a usable
credential or a process error exit, since main wraps the whole run in a
handler that prints the exception and exits with code 1 (lines 395 to
397), and the missing client secret path exits directly (line 75). -/
inductive MainOutcome where
  | credential (c : Cred) (eff : Effects)
  | errorExit (eff : Effects)
deriving DecidableEq

/-- Credential acquisition as main observes it (lines 337 to 397). -/
def main_acquire (env : Env) : MainOutcome :=
  match get_credentials env with
  | Outcome.ok c e => MainOutcome.credential c e
  | Outcome.parseFailure e => MainOutcome.errorExit e
  | Outcome.setupExit e => MainOutcome.errorExit e

/-- C3 counterexample: a token file that exists but does not parse makes
the process terminate with an error exit and zero interactive
authorization runs, even though the client secret file is present, so the
claim that a corrupt record triggers full re-authorization instead of
terminating is false. -/
theorem corrupt_token_no_reauth_counterexample :
    main_acquire ⟨true, none, true, false, ⟨none, false, false, false⟩⟩ =
      MainOutcome.errorExit ⟨0, 0, 0, none⟩ := rfl

/-- C3 amended: when the token file exists but cannot be parsed, the
parse exception propagates out of get_credentials to the top level
handler and the process exits with an error, with no refresh call, no
interactive authorization and no save attempted. -/
theorem corrupt_token_error_exit (env : Env)
    (h1 : env.tokenFileExists = true) (h2 : env.parsedCred = none) :
    main_acquire env = MainOutcome.errorExit ⟨0, 0, 0, none⟩ := by
  simp [main_acquire, get_credentials, h1, h2]

/-- C3 witness: the amended statement at a concrete corrupt-record
environment. -/
theorem corrupt_token_error_exit_witness :
    main_acquire ⟨true, none, true, true, ⟨some SCOPES, true, false, true⟩⟩ =
      MainOutcome.errorExit ⟨0, 0, 0, none⟩ :=
  corrupt_token_error_exit ⟨true, none, true, true, ⟨some SCOPES, true, false, true⟩⟩ rfl rfl

/-- C5 counterexample: a stored credential whose recorded scope list is
empty grants none of the required scopes, yet get_credentials reuses its
refresh token: the scope screening is skipped for a falsy scope list, the
expired credential is refreshed remotely, and the run performs one
refresh call instead of the zero the claim requires. -/
theorem empty_scopes_refresh_reused_counterexample :
    missingScopes ⟨some [], false, true, true⟩ ≠ [] ∧
    (get_credentials
        ⟨true, some ⟨some [], false, true, true⟩, true, true,
          ⟨some SCOPES, true, false, true⟩⟩).eff.refreshCalls = 1 := by
  exact ⟨by decide, rfl⟩

/-- C5 amended: for every stored credential whose recorded scope list is
non-empty and misses at least one required scope, get_credentials never
issues a refresh call; it discards the credential and takes the
interactive re-authorization path, running the interactive flow exactly
once whenever the client secret file is present. -/
theorem insufficient_nonempty_scopes_no_refresh (env : Env) (c : Cred) (l : List String)
    (h1 : env.tokenFileExists = true) (h2 : env.parsedCred = some c)
    (h3 : c.scopes = some l) (h4 : l ≠ []) (h5 : missingScopes c ≠ []) :
    (get_credentials env).eff.refreshCalls = 0 ∧
    (env.credentialsFileExists = true →
      (get_credentials env).eff.interactiveRuns = 1) := by
  have ht : scopesTruthy c = true := by
    cases l with
    | nil => exact absurd rfl h4
    | cons a t => simp [scopesTruthy, h3]
  have hm : (missingScopes c).isEmpty = false := by
    cases hmm : missingScopes c with
    | nil => exact absurd hmm h5
    | cons a t => simp
  have hsc : scope_check c = none := by
    simp [scope_check, ht, hm]
  cases hcf : env.credentialsFileExists <;>
    simp [get_credentials, h1, h2, hsc, getCredsWithLoaded, interactiveReauth,
      hcf, Outcome.eff]

/-- C5 witness: the amended statement at a concrete environment whose
stored credential records only the readonly scope. -/
theorem insufficient_nonempty_scopes_no_refresh_witness :
    (get_credentials
        ⟨true, some ⟨some ["https://www.googleapis.com/auth/gmail.readonly"], true, true, true⟩,
          true, true, ⟨some SCOPES, true, false, true⟩⟩).eff.refreshCalls = 0 ∧
    ((true : Bool) = true →
      (get_credentials
          ⟨true, some ⟨some ["https://www.googleapis.com/auth/gmail.readonly"], true, true, true⟩,
            true, true, ⟨some SCOPES, true, false, true⟩⟩).eff.interactiveRuns = 1) :=
  insufficient_nonempty_scopes_no_refresh
    ⟨true, some ⟨some ["https://www.googleapis.com/auth/gmail.readonly"], true, true, true⟩,
      true, true, ⟨some SCOPES, true, false, true⟩⟩
    ⟨some ["https://www.googleapis.com/auth/gmail.readonly"], true, true, true⟩
    ["https://www.googleapis.com/auth/gmail.readonly"]
    rfl rfl rfl (by decide) (by decide)

/-- C6: for a stored credential with all required scopes recorded, an
expired access token and a refresh token present, a successful remote
refresh returns the refreshed valid credential with exactly one refresh
call and exactly one save writing that refreshed credential, while a
failed refresh falls back to the interactive re-authorization flow and
returns its fresh credential instead of propagating the failure. -/
theorem expired_refresh_paths (env : Env) (c : Cred)
    (h1 : env.tokenFileExists = true) (h2 : env.parsedCred = some c)
    (h3 : missingScopes c = []) (h4 : c.expired = true)
    (h5 : c.hasRefreshToken = true) (h6 : env.credentialsFileExists = true) :
    (env.refreshSucceeds = true →
      get_credentials env = Outcome.ok (refreshCred c) ⟨1, 0, 1, some (refreshCred c)⟩ ∧
      (refreshCred c).valid = true) ∧
    (env.refreshSucceeds = false →
      get_credentials env = Outcome.ok env.freshCred ⟨1, 1, 1, some env.freshCred⟩) := by
  have hsc : scope_check c = some c := by
    simp [scope_check, h3]
  constructor <;> intro h7 <;>
    simp [get_credentials, h1, h2, hsc, getCredsWithLoaded, Cred.valid, h4, h5,
      h6, h7, refreshCred, interactiveReauth]

/-- C6 witness: both refresh paths at concrete environments holding a
fully scoped, expired credential with a refresh token. -/
theorem expired_refresh_paths_witness :
    (((true : Bool) = true →
      get_credentials ⟨true, some ⟨some SCOPES, true, true, true⟩, true, true,
          ⟨some SCOPES, true, false, true⟩⟩ =
        Outcome.ok (refreshCred ⟨some SCOPES, true, true, true⟩)
          ⟨1, 0, 1, some (refreshCred ⟨some SCOPES, true, true, true⟩)⟩ ∧
      (refreshCred ⟨some SCOPES, true, true, true⟩).valid = true) ∧
    ((true : Bool) = false →
      get_credentials ⟨true, some ⟨some SCOPES, true, true, true⟩, true, true,
          ⟨some SCOPES, true, false, true⟩⟩ =
        Outcome.ok ⟨some SCOPES, true, false, true⟩
          ⟨1, 1, 1, some ⟨some SCOPES, true, false, true⟩⟩)) :=
  expired_refresh_paths
    ⟨true, some ⟨some SCOPES, true, true, true⟩, true, true, ⟨some SCOPES, true, false, true⟩⟩
    ⟨some SCOPES, true, true, true⟩ rfl rfl (by decide) rfl rfl rfl

/-- C7: a stored credential recording all required scopes, holding its
access token, with an unexpired expiry, is returned unchanged by
get_credentials with zero refresh calls, zero interactive runs and zero
token file writes. -/
theorem valid_credential_no_effects (env : Env) (c : Cred)
    (h1 : env.tokenFileExists = true) (h2 : env.parsedCred = some c)
    (h3 : missingScopes c = []) (h4 : c.expired = false) (h5 : c.hasToken = true) :
    get_credentials env = Outcome.ok c ⟨0, 0, 0, none⟩ := by
  have hsc : scope_check c = some c := by
    simp [scope_check, h3]
  simp [get_credentials, h1, h2, hsc, getCredsWithLoaded, Cred.valid, h4, h5]

/-- C7 witness: the frame property at a concrete environment holding a
fresh fully scoped credential. -/
theorem valid_credential_no_effects_witness :
    get_credentials ⟨true, some ⟨some SCOPES, true, false, true⟩, true, true,
        ⟨some SCOPES, true, false, true⟩⟩ =
      Outcome.ok ⟨some SCOPES, true, false, true⟩ ⟨0, 0, 0, none⟩ :=
  valid_credential_no_effects
    ⟨true, some ⟨some SCOPES, true, false, true⟩, true, true, ⟨some SCOPES, true, false, true⟩⟩
    ⟨some SCOPES, true, false, true⟩ rfl rfl (by decide) rfl rfl

/-- C10: a stored credential whose recorded scope list is absent or empty
misses every required scope, yet the scope screening passes it through
unchanged, and the credential proceeds to the validity and refresh path:
when it is expired with a refresh token and the refresh call succeeds,
get_credentials reuses that refresh token and returns the refreshed
credential. -/
theorem falsy_scopes_check_skipped (env : Env) (c : Cred)
    (h1 : env.tokenFileExists = true) (h2 : env.parsedCred = some c)
    (h3 : c.scopes = none ∨ c.scopes = some []) :
    scope_check c = some c ∧ missingScopes c = SCOPES ∧
    (c.expired = true → c.hasRefreshToken = true → env.refreshSucceeds = true →
      get_credentials env =
        Outcome.ok (refreshCred c) ⟨1, 0, 1, some (refreshCred c)⟩) := by
  have hg : c.scopes.getD [] = [] := by
    rcases h3 with h | h <;> simp [h]
  have ht : scopesTruthy c = false := by
    simp [scopesTruthy, hg]
  have hsc : scope_check c = some c := by
    simp [scope_check, ht]
  refine ⟨hsc, ?_, ?_⟩
  · simp [missingScopes, hg]
  · intro h4 h5 h6
    simp [get_credentials, h1, h2, hsc, getCredsWithLoaded, Cred.valid, h4, h5, h6]

/-- C10 witness: the skipped scope screening at a concrete environment
whose stored credential records no scopes at all. -/
theorem falsy_scopes_check_skipped_witness :
    scope_check ⟨none, false, true, true⟩ = some ⟨none, false, true, true⟩ ∧
    missingScopes ⟨none, false, true, true⟩ = SCOPES ∧
    ((true : Bool) = true → (true : Bool) = true → (true : Bool) = true →
      get_credentials ⟨true, some ⟨none, false, true, true⟩, true, true,
          ⟨some SCOPES, true, false, true⟩⟩ =
        Outcome.ok (refreshCred ⟨none, false, true, true⟩)
          ⟨1, 0, 1, some (refreshCred ⟨none, false, true, true⟩)⟩) :=
  falsy_scopes_check_skipped
    ⟨true, some ⟨none, false, true, true⟩, true, true, ⟨some SCOPES, true, false, true⟩⟩
    ⟨none, false, true, true⟩ rfl rfl (Or.inl rfl)

/-! ## Message body decoding (gmail_read.py, get_message_full lines 134 to 146) -/

/-- Value of a standard base64 alphabet character, none for any other
character. -/
def b64Val (c : Char) : Option Nat :=
  if 'A' ≤ c ∧ c ≤ 'Z' then some (c.toNat - 65)
  else if 'a' ≤ c ∧ c ≤ 'z' then some (c.toNat - 97 + 26)
  else if '0' ≤ c ∧ c ≤ '9' then some (c.toNat - 48 + 52)
  else if c = '+' then some 62
  else if c = '/' then some 63
  else none

/-- The urlsafe alphabet translation performed by base64.urlsafe_b64decode
before decoding. -/
def urlsafeChar (c : Char) : Char :=
  if c = '-' then '+' else if c = '_' then '/' else c

/-- Decode a list of 6-bit values into bytes, 4 values to 3 bytes, with a
final quantum of 2 or 3 values giving 1 or 2 bytes. -/
def b64Quads : List Nat → List Nat
  | a :: b :: c :: d :: rest =>
    (a * 4 + b / 16) :: ((b % 16) * 16 + c / 4) :: ((c % 4) * 64 + d) :: b64Quads rest
  | [a, b] => [a * 4 + b / 16]
  | [a, b, c] => [a * 4 + b / 16, (b % 16) * 16 + c / 4]
  | _ => []

/-- Model of base64.urlsafe_b64decode on text input: translate the urlsafe
alphabet, discard characters outside the alphabet, and fail (as
binascii.Error propagating out of the decode, line 139 and lines 143 and
146 of gmail_read.py) when the data characters leave a final quantum of
one value or the padding characters for a short final quantum are
missing. -/
def urlsafeB64decode (s : String) : Except Unit (List Nat) :=
  let cs := (s.data.map urlsafeChar).filter (fun c => (b64Val c).isSome || c == '=')
  let dataCs := cs.takeWhile (fun c => c != '=')
  let pads := (cs.drop dataCs.length).filter (fun c => c == '=')
  let vals := dataCs.filterMap b64Val
  let needed := (4 - vals.length % 4) % 4
  if vals.length % 4 == 1 then Except.error ()
  else if pads.length < needed then Except.error ()
  else Except.ok (b64Quads vals)

/-- A byte in the UTF-8 continuation range. -/
def isCont (b : Nat) : Bool := 128 ≤ b && b ≤ 191

/-- Allowed range of the first continuation byte after a given UTF-8 lead
byte, narrowing the ranges that would make the sequence overlong, a
surrogate, or above the last code point. -/
def cont1ok (b b1 : Nat) : Bool :=
  if b = 224 then 160 ≤ b1 && b1 ≤ 191
  else if b = 237 then 128 ≤ b1 && b1 ≤ 159
  else if b = 240 then 144 ≤ b1 && b1 ≤ 191
  else if b = 244 then 128 ≤ b1 && b1 ≤ 143
  else isCont b1

/-- The replacement character U+FFFD. -/
def repChar : Char := Char.ofNat 65533

/-- UTF-8 decoding with replacement-on-error, as bytes.decode("utf-8",
errors="replace") behaves: each maximal invalid subsequence yields one
replacement character and decoding continues with the next byte. The
fuel argument bounds the recursion and every step consumes at least one
byte, so fuel equal to the byte count is exact. -/
def utf8Go : Nat → List Nat → List Char
  | 0, _ => []
  | _, [] => []
  | fuel + 1, b :: rest =>
    if b ≤ 127 then Char.ofNat b :: utf8Go fuel rest
    else if 194 ≤ b && b ≤ 223 then
      match rest with
      | b1 :: rest1 =>
        if isCont b1 then
          Char.ofNat ((b - 192) * 64 + (b1 - 128)) :: utf8Go fuel rest1
        else repChar :: utf8Go fuel rest
      | [] => [repChar]
    else if 224 ≤ b && b ≤ 239 then
      match rest with
      | b1 :: b2 :: rest2 =>
        if cont1ok b b1 && isCont b2 then
          Char.ofNat ((b - 224) * 4096 + (b1 - 128) * 64 + (b2 - 128)) ::
            utf8Go fuel rest2
        else if cont1ok b b1 then repChar :: utf8Go fuel (b2 :: rest2)
        else repChar :: utf8Go fuel (b1 :: b2 :: rest2)
      | [b1] => if cont1ok b b1 then [repChar] else repChar :: utf8Go fuel [b1]
      | [] => [repChar]
    else if 240 ≤ b && b ≤ 244 then
      match rest with
      | b1 :: b2 :: b3 :: rest3 =>
        if cont1ok b b1 && isCont b2 && isCont b3 then
          Char.ofNat ((b - 240) * 262144 + (b1 - 128) * 4096 + (b2 - 128) * 64 +
              (b3 - 128)) :: utf8Go fuel rest3
        else if cont1ok b b1 && isCont b2 then repChar :: utf8Go fuel (b3 :: rest3)
        else if cont1ok b b1 then repChar :: utf8Go fuel (b2 :: b3 :: rest3)
        else repChar :: utf8Go fuel (b1 :: b2 :: b3 :: rest3)
      | [b1, b2] =>
        if cont1ok b b1 && isCont b2 then [repChar]
        else if cont1ok b b1 then repChar :: utf8Go fuel [b2]
        else repChar :: utf8Go fuel [b1, b2]
      | [b1] => if cont1ok b b1 then [repChar] else repChar :: utf8Go fuel [b1]
      | [] => [repChar]
    else repChar :: utf8Go fuel rest

/-- Bytes to string with replacement-on-error. -/
def utf8DecodeReplace (bs : List Nat) : String := ⟨utf8Go bs.length bs⟩

/-- The decode applied to every body data field:
base64.urlsafe_b64decode(data).decode("utf-8", errors="replace"), where
the base64 step can raise and the character step cannot. -/
def decodeBody (d : String) : Except Unit String :=
  (urlsafeB64decode d).map utf8DecodeReplace

/-- The body dict of a payload or part: its data field may be absent. -/
structure BodyRec where
  data : Option String
deriving DecidableEq

/-- One entry of the parts list of a payload: mimeType and body may each
be absent. -/
structure PartRec where
  mimeType : Option String
  body : Option BodyRec
deriving DecidableEq

/-- The payload of a fetched message: an optional direct body and an
optional parts list. -/
structure Payload where
  body : Option BodyRec
  parts : Option (List PartRec)
deriving DecidableEq

/-- Safe data lookup part.get("body", {}).get("data") used in the
plain-text guard at line 142. -/
def partData (p : PartRec) : Option String := (p.body.getD ⟨none⟩).data

/-- Python truthiness of part.get("body", {}).get("data"): present and
non-empty. -/
def partDataTruthy (p : PartRec) : Bool :=
  match partData p with
  | some d => d != ""
  | none => false

/-- Python truthiness of the direct body data guard at line 138:
"body" in payload and payload["body"].get("data"). -/
def directBodyTruthy : Option BodyRec → Bool
  | some b =>
    match b.data with
    | some d => d != ""
    | none => false
  | none => false

/-- The part scanning loop at lines 141 to 146. The first part whose
mimeType is text/plain with truthy body data is decoded and the loop
breaks; a text/html part met while body is still empty is decoded through
the unguarded index part["body"]["data"], which raises KeyError (modelled
as Except.error) when the body dict or its data field is absent; any
other part is skipped. -/
def scanParts : List PartRec → String → Except Unit String
  | [], body => Except.ok body
  | p :: rest, body =>
    if p.mimeType == some "text/plain" && partDataTruthy p then
      decodeBody ((partData p).getD "")
    else
      if p.mimeType == some "text/html" && body == "" then
        match p.body with
        | none => Except.error ()
        | some b =>
          match b.data with
          | none => Except.error ()
          | some d =>
            match decodeBody d with
            | Except.error e => Except.error e
            | Except.ok s => scanParts rest s
      else scanParts rest body

/-- The body extraction of get_message_full (lines 134 to 146): a truthy
direct body is decoded, else the parts list is scanned, else the body
stays empty. An Except.error result models a python exception propagating
out of get_message_full. -/
def extractBody (payload : Payload) : Except Unit String :=
  if directBodyTruthy payload.body then
    decodeBody ((payload.body.getD ⟨none⟩).data.getD "")
  else
    match payload.parts with
    | some parts => scanParts parts ""
    | none => Except.ok ""

/-- C4: body selection priority. For a payload with no truthy direct body
whose parts are a plain-text part and an html part, each with body data
that decodes, the extracted body is the decoded content of the plain-text
part in both orders: the plain-text part wins even when the html part
came first, and the html content is only kept while no plain-text part
with data has been found. -/
theorem body_selection_plain_priority (pb : Option BodyRec) (pt ph : PartRec)
    (dp dh sp sh : String)
    (h0 : directBodyTruthy pb = false)
    (h1 : pt.mimeType = some "text/plain") (h2 : partData pt = some dp) (h3 : dp ≠ "")
    (h4 : ph.mimeType = some "text/html") (h5 : partData ph = some dh) (h6 : dh ≠ "")
    (h7 : decodeBody dp = Except.ok sp) (h8 : decodeBody dh = Except.ok sh) :
    extractBody ⟨pb, some [pt, ph]⟩ = Except.ok sp ∧
    extractBody ⟨pb, some [ph, pt]⟩ = Except.ok sp := by
  have hb1 : (pt.mimeType == some "text/plain" && partDataTruthy pt) = true := by
    rw [h1]
    simp [partDataTruthy, h2, h3]
  have hb2 : (ph.mimeType == some "text/plain") = false := by
    rw [h4]; rfl
  have hb3 : (ph.mimeType == some "text/html") = true := by
    rw [h4]; rfl
  have hstep : ∀ rest body, scanParts (pt :: rest) body = Except.ok sp := by
    intro rest body
    simp only [scanParts]
    rw [hb1]
    simp [h2, h7]
  refine ⟨?_, ?_⟩
  · simp only [extractBody, h0]
    simp only [Bool.false_eq_true, if_false]
    exact hstep [ph] ""
  · simp only [extractBody, h0]
    simp only [Bool.false_eq_true, if_false]
    simp only [scanParts]
    rw [hb2, hb3]
    rcases hpb : ph.body with _ | b
    · simp [partData, hpb] at h5
    · have hbd : b.data = some dh := by
        simpa [partData, hpb] using h5
      simp only [Bool.false_and, Bool.true_and, Bool.false_eq_true, if_false]
      simp only [hbd, h8]
      simp [hb1, h2, h7]

/-- C4 witness: both orders at concrete parts whose data decode to
"hello" and "<b>hi</b>". -/
theorem body_selection_plain_priority_witness :
    extractBody ⟨none, some [⟨some "text/plain", some ⟨some "aGVsbG8="⟩⟩,
        ⟨some "text/html", some ⟨some "PGI+aGk8L2I+"⟩⟩]⟩ = Except.ok "hello" ∧
    extractBody ⟨none, some [⟨some "text/html", some ⟨some "PGI+aGk8L2I+"⟩⟩,
        ⟨some "text/plain", some ⟨some "aGVsbG8="⟩⟩]⟩ = Except.ok "hello" :=
  body_selection_plain_priority none
    ⟨some "text/plain", some ⟨some "aGVsbG8="⟩⟩
    ⟨some "text/html", some ⟨some "PGI+aGk8L2I+"⟩⟩
    "aGVsbG8=" "PGI+aGk8L2I+" "hello" "<b>hi</b>"
    rfl rfl rfl (by decide) rfl rfl (by decide) rfl rfl

/-- C8: evaluation at failing inputs. Body extraction is not total: a
parts list holding a text/html part whose body dict has no data field
makes the scan raise KeyError through the unguarded index
part["body"]["data"] (first conjunct, and likewise with the body dict
itself absent in the second), and a truthy direct body whose data is
malformed base64 ("A" leaves a final quantum of one value) makes the
decode raise binascii.Error (third conjunct); in each case the decode
aborts instead of degrading to replacement text. -/
theorem body_extraction_raises_evaluation :
    extractBody ⟨none, some [⟨some "text/html", some ⟨none⟩⟩]⟩ = Except.error () ∧
    extractBody ⟨none, some [⟨some "text/html", none⟩]⟩ = Except.error () ∧
    extractBody ⟨some ⟨some "A"⟩, none⟩ = Except.error () :=
  ⟨rfl, rfl, rfl⟩
